import Mathlib

/-!
Verification of the transit delay predictor (`transit_delay_predictor.py`).

The computational core of the program is embedded shallowly over exact
rational arithmetic: `predict_delay`, its factor tables
(`weather_options`, `is_rush_hour`), the dataset loader `load_bus_data`,
and the display rules from `main` (severity bands and the
departure-time recommendation).  Python's impure draws
(`random.choice`, `random.uniform`, `datetime.now().hour`) are made
explicit parameters: a `Fin 6` index into the weather table, the
wall-clock hour, and the unit sample feeding `random.uniform`.
Python's `round` (round-half-to-even on the value) is modelled by
`pyRound`.
-/

namespace TDP

/-- Python's built-in `round` to the nearest integer, ties to even. -/
def pyRound (q : ℚ) : ℤ :=
  if q - (⌊q⌋ : ℚ) < 1/2 then ⌊q⌋
  else if 1/2 < q - (⌊q⌋ : ℚ) then ⌊q⌋ + 1
  else if ⌊q⌋ % 2 = 0 then ⌊q⌋ else ⌊q⌋ + 1

/-- Python's `round(x, 1)`: round to one decimal place, ties to even. -/
def roundTo1 (q : ℚ) : ℚ := (pyRound (q * 10) : ℚ) / 10

/-- The fixed weather table from `get_current_weather`:
six `(label, delay_factor)` pairs. -/
def weather_options : List (String × ℚ) :=
  [("☀️ Sunny", 1),
   ("☁️ Cloudy", 11/10),
   ("🌧️ Light Rain", 13/10),
   ("⛈️ Heavy Rain", 8/5),
   ("❄️ Snow", 9/5),
   ("🧊 Ice/Freezing", 2)]

/-- `get_current_weather`: `random.choice(weather_options)`, with the
choice index made explicit. -/
def get_current_weather (i : Fin 6) : String × ℚ :=
  weather_options.get ⟨i.val, by simpa [weather_options] using i.isLt⟩

/-- `is_rush_hour`: classifies the current wall-clock hour, returning
`(is_rush, time_period, time_factor)`. -/
def is_rush_hour (current_hour : ℕ) : Bool × String × ℚ :=
  if (7 ≤ current_hour ∧ current_hour ≤ 9) ∨
     (16 ≤ current_hour ∧ current_hour ≤ 18) then
    (true, "⏰ Rush Hour", 7/5)
  else
    (false, "😌 Regular Time", 1)

/-- `random.uniform(a, b)` as computed by CPython: `a + (b - a) * x`
where `x` is the unit sample from `random.random()`. -/
def uniform (a b x : ℚ) : ℚ := a + (b - a) * x

/-- The `random_factor` draw in `predict_delay`:
`random.uniform(0.7, 1.8)`. -/
def random_factor_draw (x : ℚ) : ℚ := uniform (7/10) (9/5) x

/-- The record returned by `predict_delay`. -/
structure DelayEstimate where
  delay_minutes : ℤ
  weather : String
  weather_factor : ℚ
  time_period : String
  time_factor : ℚ
  base_delay : ℚ
  is_rush : Bool
  deriving DecidableEq, Repr

/-- `predict_delay`: the delay-estimation core.  The three impure draws
(weather index, wall-clock hour, unit random sample) are explicit
parameters. -/
def predict_delay (route_number : ℤ) (route_name : String)
    (route_length : ℚ) (weatherIdx : Fin 6) (hour : ℕ) (x : ℚ) :
    DelayEstimate :=
  let base_delay := route_length * (3/10)
  let w := get_current_weather weatherIdx
  let r := is_rush_hour hour
  let random_factor := random_factor_draw x
  let total_delay := base_delay * w.2 * r.2.2 * random_factor
  let delay_minutes := pyRound total_delay
  { delay_minutes := delay_minutes
    weather := w.1
    weather_factor := w.2
    time_period := r.2.1
    time_factor := r.2.2
    base_delay := roundTo1 base_delay
    is_rush := r.1 }

/-- A route row as read from `GRT_Routes (1).csv`. -/
structure Route where
  route : ℤ
  fullName : String
  length : ℚ
  deriving DecidableEq, Repr

/-- A stop row as read from `GRT_Stops (1).csv` (only row count is
consumed downstream). -/
structure Stop where
  stopId : ℤ
  deriving DecidableEq, Repr

/-- The error message emitted by the single `except` branch of
`load_bus_data`. -/
def csvErrorMsg : String :=
  "❌ Could not find the CSV files! Make sure they're in the same folder."

/-- Outcome of `load_bus_data`: the two tables (or `none` each) plus
the error reported via `st.error`, if any. -/
structure LoadResult where
  routes : Option (List Route)
  stops : Option (List Stop)
  error : Option String
  deriving DecidableEq, Repr

/-- `load_bus_data`: the two `pd.read_csv` reads are modelled by their
outcomes (`none` = the read raised).  If either raises, the single
`except` branch reports `csvErrorMsg` and returns `(None, None)`;
otherwise both parsed tables are returned as-is. -/
def load_bus_data (routesRead : Option (List Route))
    (stopsRead : Option (List Stop)) : LoadResult :=
  match routesRead, stopsRead with
  | some routes, some stops =>
      { routes := some routes, stops := some stops, error := none }
  | _, _ =>
      { routes := none, stops := none, error := some csvErrorMsg }

/-- The guard at the top of `main`: `if routes_data is None: st.stop()`.
`true` means the app proceeds to interactive mode. -/
def main_proceeds (res : LoadResult) : Bool := res.routes.isSome

/-- The severity banding in `main` over `prediction['delay_minutes']`. -/
def severity (delay : ℤ) : String :=
  if delay ≤ 2 then "ON TIME"
  else if delay ≤ 5 then "SLIGHTLY LATE"
  else if delay ≤ 10 then "MODERATELY LATE"
  else "VERY LATE"

/-- The departure recommendation in `main`: shown only when
`delay > 2`, advising to leave `delay + 5` minutes earlier. -/
def recommendation (delay : ℤ) : Option ℤ :=
  if delay > 2 then some (delay + 5) else none

/-! ### Helper lemmas -/

/-- `pyRound` of a non-negative rational is non-negative. -/
theorem pyRound_nonneg (q : ℚ) (h : 0 ≤ q) : 0 ≤ pyRound q := by
  have hf : (0 : ℤ) ≤ ⌊q⌋ := Int.floor_nonneg.mpr h
  unfold pyRound
  split_ifs <;> omega

/-- Every multiplier in the weather table is at least `1`. -/
theorem one_le_weather_factor (i : Fin 6) : 1 ≤ (get_current_weather i).2 := by
  fin_cases i <;> norm_num [get_current_weather, weather_options]

/-- The time factor returned by `is_rush_hour` is at least `1`. -/
theorem one_le_time_factor (hr : ℕ) : 1 ≤ (is_rush_hour hr).2.2 := by
  unfold is_rush_hour
  split_ifs <;> norm_num

/-! ### Claim theorems -/

/-- C1: `predict_delay` returns
`delayMinutes = round(routeLength * 0.3 * weatherFactor * timeFactor * randomFactor)`
with the base delay entering the product at full precision; in
particular route length 20, Ice (factor 2.0), rush hour (factor 1.4)
and random factor 1.8 give `base_delay = 6.0` and `delay_minutes = 30`. -/
theorem predict_delay_formula (n : ℤ) (nm : String) (rl : ℚ) (i : Fin 6)
    (hr : ℕ) (x : ℚ) :
    (predict_delay n nm rl i hr x).delay_minutes =
      pyRound (rl * (3/10) * (get_current_weather i).2 *
        (is_rush_hour hr).2.2 * random_factor_draw x)
    ∧ random_factor_draw 1 = 9/5
    ∧ (predict_delay 0 "" 20 ⟨5, by norm_num⟩ 8 1).delay_minutes = 30
    ∧ (predict_delay 0 "" 20 ⟨5, by norm_num⟩ 8 1).base_delay = 6 := by
  refine ⟨rfl, by norm_num [random_factor_draw, uniform], ?_, ?_⟩ <;>
    norm_num [predict_delay, pyRound, roundTo1, get_current_weather,
      weather_options, is_rush_hour, random_factor_draw, uniform]

/-- C2: for every hour in `0..23`, `is_rush_hour` returns RushHour with
factor 1.4 exactly on `[7,9] ∪ [16,18]` and Regular with factor 1.0
otherwise; hours 8 and 17 are rush hour, hours 12 and 6 are not. -/
theorem is_rush_hour_spec (hr : ℕ) (hh : hr ≤ 23) :
    (is_rush_hour hr = (true, "⏰ Rush Hour", 7/5) ↔
       ((7 ≤ hr ∧ hr ≤ 9) ∨ (16 ≤ hr ∧ hr ≤ 18)))
    ∧ (is_rush_hour hr = (false, "😌 Regular Time", 1) ↔
       ¬((7 ≤ hr ∧ hr ≤ 9) ∨ (16 ≤ hr ∧ hr ≤ 18)))
    ∧ (is_rush_hour 8).1 = true ∧ (is_rush_hour 17).1 = true
    ∧ (is_rush_hour 12).1 = false ∧ (is_rush_hour 6).1 = false := by
  refine ⟨?_, ?_, ?_, ?_, ?_, ?_⟩
  · unfold is_rush_hour
    split_ifs with hc <;> simp [hc]
  · unfold is_rush_hour
    split_ifs with hc <;> simp [hc]
  · norm_num [is_rush_hour]
  · norm_num [is_rush_hour]
  · norm_num [is_rush_hour]
  · norm_num [is_rush_hour]

/-- C2 witness: hour 8 is classified as rush hour with factor 1.4. -/
theorem is_rush_hour_spec_witness :
    is_rush_hour 8 = (true, "⏰ Rush Hour", 7/5) :=
  ((is_rush_hour_spec 8 (by norm_num)).1).mpr (by norm_num)

/-- C3: the weather table has exactly 6 entries, every multiplier is
`≥ 1`, the Sunny entry has multiplier 1.0, the Ice entry 2.0, and
every draw returns one of the 6 table entries. -/
theorem weather_table_spec :
    weather_options.length = 6
    ∧ (∀ p ∈ weather_options, 1 ≤ p.2)
    ∧ weather_options.get ⟨0, by norm_num [weather_options]⟩ = ("☀️ Sunny", 1)
    ∧ weather_options.get ⟨5, by norm_num [weather_options]⟩ =
        ("🧊 Ice/Freezing", 2)
    ∧ ∀ i : Fin 6, get_current_weather i ∈ weather_options := by
  refine ⟨rfl, ?_, rfl, rfl, ?_⟩
  · intro p hp
    fin_cases hp <;> norm_num
  · intro i
    exact List.get_mem _ _ _

/-- C3 witness: the Cloudy entry is in the table and its multiplier is
at least 1. -/
theorem weather_table_spec_witness :
    1 ≤ (("☁️ Cloudy", (11/10 : ℚ))).2 :=
  weather_table_spec.2.1 _ (by norm_num [weather_options])

/-- C4: for any non-negative route length, any table-drawn weather and
time factors, and any random factor in `[0.7, 1.8)` (unit sample in
`[0, 1)`), the predicted delay is non-negative. -/
theorem delay_minutes_nonneg (n : ℤ) (nm : String) (rl : ℚ) (i : Fin 6)
    (hr : ℕ) (x : ℚ) (hrl : 0 ≤ rl) (hx0 : 0 ≤ x) (hx1 : x < 1) :
    0 ≤ (predict_delay n nm rl i hr x).delay_minutes := by
  have hw : (0 : ℚ) ≤ (get_current_weather i).2 :=
    le_trans zero_le_one (one_le_weather_factor i)
  have ht : (0 : ℚ) ≤ (is_rush_hour hr).2.2 :=
    le_trans zero_le_one (one_le_time_factor hr)
  have hx : (0 : ℚ) ≤ random_factor_draw x := by
    unfold random_factor_draw uniform
    nlinarith
  exact pyRound_nonneg _ (by positivity)

/-- C4 witness: route length 20, Ice, hour 8, unit sample 1/2 gives a
non-negative delay. -/
theorem delay_minutes_nonneg_witness :
    0 ≤ (predict_delay 0 "" 20 (5 : Fin 6) 8 (1/2)).delay_minutes :=
  delay_minutes_nonneg 0 "" 20 (5 : Fin 6) 8 (1/2) (by norm_num)
    (by norm_num) (by norm_num)

/-- C5: the loader never returns partially-loaded tables (the routes
table is present exactly when the stops table is), succeeds exactly
when both reads succeed, reports the single CSV error on any failure
with both tables absent, and `main` proceeds to interactive mode
exactly when the load succeeded. -/
theorem load_bus_data_spec (rr : Option (List Route))
    (sr : Option (List Stop)) :
    ((load_bus_data rr sr).routes.isSome ↔ (load_bus_data rr sr).stops.isSome)
    ∧ ((load_bus_data rr sr).error = none ↔ rr.isSome ∧ sr.isSome)
    ∧ ((load_bus_data rr sr).error ≠ none →
        (load_bus_data rr sr).error = some csvErrorMsg
        ∧ (load_bus_data rr sr).routes = none
        ∧ (load_bus_data rr sr).stops = none)
    ∧ (main_proceeds (load_bus_data rr sr) = true ↔ rr.isSome ∧ sr.isSome) := by
  cases rr <;> cases sr <;> simp [load_bus_data, main_proceeds]

/-- C5 witness: a missing routes file yields the single CSV error and
no tables at all. -/
theorem load_bus_data_spec_witness :
    (load_bus_data (none : Option (List Route))
        (some ([] : List Stop))).error = some csvErrorMsg
    ∧ (load_bus_data (none : Option (List Route))
        (some ([] : List Stop))).routes = none
    ∧ (load_bus_data (none : Option (List Route))
        (some ([] : List Stop))).stops = none :=
  (load_bus_data_spec none (some [])).2.2.1 (by simp [load_bus_data])

/-- C6 counterexample: the loader does not reject non-positive route
lengths — a routes table containing a row with `Length = -5` is
returned to the caller unchanged, non-positive length included. -/
theorem load_bus_data_rejects_bad_length_cex :
    (load_bus_data (some [{ route := 1, fullName := "Bad", length := -5 }])
        (some [])).routes =
      some [{ route := 1, fullName := "Bad", length := -5 }]
    ∧ ({ route := 1, fullName := "Bad", length := -5 } : Route).length ≤ 0 :=
  ⟨rfl, by norm_num⟩

/-- C6 amended: the loader performs no per-row validation — every
successfully parsed routes table is passed through unchanged, so rows
with non-positive (or any) `Length` reach the caller and hence the
Delay Estimator. -/
theorem load_bus_data_passthrough (rts : List Route) (stps : List Stop) :
    (load_bus_data (some rts) (some stps)).routes = some rts
    ∧ (load_bus_data (some rts) (some stps)).stops = some stps :=
  ⟨rfl, rfl⟩

/-- C7: the severity banding assigns exactly one of the four bands,
with boundaries at 2, 5 and 10; delay 2 is on time, 3 slightly late,
6 moderately late, 11 very late. -/
theorem severity_spec (d : ℤ) :
    (severity d = "ON TIME" ↔ d ≤ 2)
    ∧ (severity d = "SLIGHTLY LATE" ↔ 2 < d ∧ d ≤ 5)
    ∧ (severity d = "MODERATELY LATE" ↔ 5 < d ∧ d ≤ 10)
    ∧ (severity d = "VERY LATE" ↔ 10 < d)
    ∧ severity 2 = "ON TIME" ∧ severity 3 = "SLIGHTLY LATE"
    ∧ severity 6 = "MODERATELY LATE" ∧ severity 11 = "VERY LATE" := by
  refine ⟨?_, ?_, ?_, ?_, by decide, by decide, by decide, by decide⟩ <;>
    (unfold severity; split_ifs <;> simp_all <;> omega)

/-- C8: every value of the `random_factor` draw lies in `[0.7, 1.8)`:
the upper endpoint is never produced (exact arithmetic, unit sample in
`[0, 1)`). -/
theorem random_factor_range (x : ℚ) (h0 : 0 ≤ x) (h1 : x < 1) :
    7/10 ≤ random_factor_draw x ∧ random_factor_draw x < 9/5 := by
  unfold random_factor_draw uniform
  constructor <;> nlinarith

/-- C8 witness: the unit sample 1/2 yields a draw in `[0.7, 1.8)`. -/
theorem random_factor_range_witness :
    7/10 ≤ random_factor_draw (1/2) ∧ random_factor_draw (1/2) < 9/5 :=
  random_factor_range (1/2) (by norm_num) (by norm_num)

/-- C9: the departure recommendation "leave `delay + 5` minutes
earlier" is surfaced exactly when `delay > 2`. -/
theorem recommendation_spec (d : ℤ) :
    (recommendation d = some (d + 5) ↔ 2 < d)
    ∧ (recommendation d = none ↔ d ≤ 2)
    ∧ ((recommendation d).isSome ↔ 2 < d) := by
  unfold recommendation
  split_ifs with h <;> simp <;> omega

/-- C10: `predict_delay` ignores its `route_number` and `route_name`
arguments — with identical route length and identical draws, every
field of the returned estimate is identical. -/
theorem predict_delay_ignores_route_identity (n₁ n₂ : ℤ)
    (nm₁ nm₂ : String) (rl : ℚ) (i : Fin 6) (hr : ℕ) (x : ℚ) :
    predict_delay n₁ nm₁ rl i hr x = predict_delay n₂ nm₂ rl i hr x := rfl

end TDP
